import Mathlib

/-!
Verification of the Wikipedia personal-attack-detection notebook
(Manika_Sharma_Project.ipynb).  Strings are modelled as lists of
characters and the Python method str.replace as a leftmost,
non-overlapping, replace-all scan (`replaceAll` below); all five cleaning
patterns used by the notebook are nonempty, and `replaceAll` models
CPython semantics for nonempty patterns.  The scan never revisits the
replacement text, exactly as CPython does.
-/

/-- Does `pat` occur at the head of `s`? -/
def startsWith : List Char → List Char → Bool
  | [], _ => true
  | _ :: _, [] => false
  | p :: ps, c :: cs => p == c && startsWith ps cs

/-- Does `pat` occur anywhere in `s` (as a contiguous substring)? -/
def occurs (pat : List Char) : List Char → Bool
  | [] => startsWith pat []
  | c :: cs => startsWith pat (c :: cs) || occurs pat cs

/-- Fuel-indexed scan implementing CPython str.replace for a nonempty
pattern: at each position, if the pattern matches, emit the replacement
and skip the matched characters; otherwise copy one character.  Fuel
`s.length` always suffices because each step consumes at least one
character of a nonempty pattern match or one copied character. -/
def replaceAllAux : Nat → List Char → List Char → List Char → List Char
  | _, _, _, [] => []
  | 0, _, _, s => s
  | fuel + 1, pat, rep, c :: cs =>
    if startsWith pat (c :: cs) then
      rep ++ replaceAllAux fuel pat rep (List.drop pat.length (c :: cs))
    else
      c :: replaceAllAux fuel pat rep cs

/-- Python `s.replace(pat, rep)` for a nonempty `pat`. -/
def replaceAll (pat rep s : List Char) : List Char :=
  replaceAllAux s.length pat rep s

/-- Cleaning rule 1 pattern: the literal text NEWLINE_TOKEN. -/
def patNewline : List Char := "NEWLINE_TOKEN".toList

/-- Cleaning rule 2 pattern: the literal text TAB_TOKEN. -/
def patTab : List Char := "TAB_TOKEN".toList

/-- Cleaning rule 3 pattern: the 41-character literal produced by the
Python double-quoted source text (escape sequences already processed by
the Python lexer, e.g. backslash-apostrophe became a bare apostrophe). -/
def patPunct : List Char :=
  ['/', '[', '^', 'a', '-', 'z', ' ', '\\', 'd', ' ', Char.ofNat 39, ' ',
   '\\', '.', ' ', '\\', ',', ' ', '"', ' ', '\\', ':', ' ', '\\', ';',
   ' ', '\\', '?', ' ', '\\', '-', ' ', '\\', '!', ' ', ' ', '\\', 's',
   ']', '/', 'i']

/-- Cleaning rule 4 pattern: the raw literal text http backslash S plus. -/
def patHttp : List Char := ['h', 't', 't', 'p', '\\', 'S', '+']

/-- Cleaning rule 5 pattern: the literal text left-bracket 0-9 right-bracket. -/
def patDigit : List Char := ['[', '0', '-', '9', ']']

/-- The notebook's cell-9 comment cleaning: the five replacement rules
applied in source order to a comment. -/
def cleanComment (s : List Char) : List Char :=
  replaceAll patDigit []
    (replaceAll patHttp []
      (replaceAll patPunct [' ']
        (replaceAll patTab [' ']
          (replaceAll patNewline [' '] s))))

/-- The notebook's cell-24 corpus comment cleaning: only the first two
replacement rules (NEWLINE_TOKEN and TAB_TOKEN to a space). -/
def corpusCleanComment (s : List Char) : List Char :=
  replaceAll patTab [' '] (replaceAll patNewline [' '] s)

/-- The annotator attack values for one revision id: cell 7 groups the
annotations table by rev_id and takes the attack column of the group. -/
def attackVals (annotations : List (Nat × ℚ)) (rid : Nat) : List ℚ :=
  (annotations.filter (fun a => a.1 == rid)).map Prod.snd

/-- The per-revision mean annotator attack value (pandas mean). -/
def attackMean (annotations : List (Nat × ℚ)) (rid : Nat) : ℚ :=
  (attackVals annotations rid).sum / ((attackVals annotations rid).length : ℚ)

/-- Cell 7: a revision is labelled an attack when the mean annotator
attack value is strictly greater than 0.5. -/
def attackLabel (annotations : List (Nat × ℚ)) (rid : Nat) : Bool :=
  decide (attackMean annotations rid > 1 / 2)

/-- Cell 8: the labels series is joined onto the comments table by
rev_id, giving each comment row its boolean attack label. -/
def joinAttack (annotations : List (Nat × ℚ)) (revIds : List Nat) :
    List (Nat × Bool) :=
  revIds.map (fun rid => (rid, attackLabel annotations rid))

/-- One row of a corpus chunk TSV: the columns used by the notebook.
The incl field models the include column that cell 22 adds. -/
structure CRow where
  bot : Int
  admin : Int
  incl : Int
  ns : String
  year : Int
  comment : List Char
deriving DecidableEq

/-- Cell 22, per chunk file: assign the include column from the Bernoulli
draws (one draw per row, modelled as an input), then keep the rows with
bot == 0 and admin == 0 and include == 1. -/
def chunkSample (rows : List CRow) (draws : List Int) : List CRow :=
  (List.zipWith (fun r d => { r with incl := d }) rows draws).filter
    (fun r => r.bot == 0 && r.admin == 0 && r.incl == 1)

/-- Cell 22, load_no_bot_no_admin: concatenate the filtered chunk samples
and overwrite the ns and year columns with the arguments. -/
def load_no_bot_no_admin (chunks : List (List CRow × List Int))
    (ns : String) (year : Int) : List CRow :=
  ((chunks.map (fun c => chunkSample c.1 c.2)).flatten).map
    (fun r => { r with ns := ns, year := year })

/-- Cell 24: a corpus row is marked as an attack exactly when the trained
model's predicted probability of the attack class on the two-rule-cleaned
comment is strictly greater than 0.425.  The fitted model's probability
function is an input p. -/
def markAttack (p : List Char → ℚ) (r : CRow) : Bool :=
  decide (p (corpusCleanComment r.comment) > (425 : ℚ) / 1000)

/-- The attack column as plotted: True is 1 and False is 0. -/
def attackIndicator (p : List Char → ℚ) (r : CRow) : ℚ :=
  if markAttack p r then 1 else 0

/-- Cell 25: seaborn pointplot of attack against ns estimates, per
namespace, the mean of the attack column over the rows of that
namespace. -/
def nsPrevalence (p : List Char → ℚ) (corpus : List CRow) (ns : String) : ℚ :=
  ((corpus.filter (fun r => r.ns == ns)).map (attackIndicator p)).sum /
    ((corpus.filter (fun r => r.ns == ns)).length : ℚ)

/-- Cell 11: the bag-of-words feature vector of a document.  Because the
CountVectorizer is given a callable analyzer (stemmed_words), sklearn
ignores ngram_range and the features are the fitted vocabulary's token
counts in the analyzed (stemmed) token sequence of the document. -/
def featureVector (vocab : List (List Char))
    (an : List Char → List (List Char)) (doc : List Char) : List Nat :=
  vocab.map (fun t => ((an doc).filter (fun w => w == t)).length)

/-- The final classifier stage of one comparison run (cells 11 to 15). -/
inductive ClassifierKind where
  | logisticRegression
  | randomForest
  | linearSVC
  | multinomialNB
  | mlp
deriving DecidableEq

/-- What is passed to roc_auc_score as the score argument. -/
inductive AucInput where
  | probaPositiveClass
  | hardLabel
deriving DecidableEq

/-- A transcription of one classifier-comparison cell: the data split
queried, the CountVectorizer settings, the TfidfTransformer norm, the
final classifier, the score fed to roc_auc_score, and the metrics
computed from the predictions. -/
structure RunConfig where
  trainSplit : String
  testSplit : String
  maxDf : ℚ
  minDf : Nat
  maxFeatures : Nat
  ngramLo : Nat
  ngramHi : Nat
  stemmedAnalyzer : Bool
  stripAccentsAscii : Bool
  tfidfNorm : String
  classifier : ClassifierKind
  aucInput : AucInput
  reportedMetrics : List String
deriving DecidableEq

/-- The metric calls shared by all five comparison cells. -/
def sharedMetrics : List String :=
  ["classification_report", "roc_auc_score",
   "precision_recall_fscore_support", "confusion_matrix"]

/-- Cell 11: logistic regression; roc_auc_score gets the positive-class
column of predict_proba. -/
def cell11Run : RunConfig :=
  { trainSplit := "train", testSplit := "test", maxDf := 1, minDf := 1,
    maxFeatures := 10000, ngramLo := 1, ngramHi := 4,
    stemmedAnalyzer := true, stripAccentsAscii := true, tfidfNorm := "l2",
    classifier := ClassifierKind.logisticRegression,
    aucInput := AucInput.probaPositiveClass,
    reportedMetrics := sharedMetrics }

/-- Cell 12: random forest; roc_auc_score gets the positive-class column
of predict_proba. -/
def cell12Run : RunConfig :=
  { cell11Run with classifier := ClassifierKind.randomForest }

/-- Cell 13: linear SVC; roc_auc_score gets the hard predictions of
predict. -/
def cell13Run : RunConfig :=
  { cell11Run with classifier := ClassifierKind.linearSVC, aucInput := AucInput.hardLabel }

/-- Cell 14: multinomial naive Bayes; roc_auc_score gets the hard
predictions of predict. -/
def cell14Run : RunConfig :=
  { cell11Run with classifier := ClassifierKind.multinomialNB, aucInput := AucInput.hardLabel }

/-- Cell 15: multilayer perceptron; roc_auc_score gets the hard
predictions of predict. -/
def cell15Run : RunConfig :=
  { cell11Run with classifier := ClassifierKind.mlp, aucInput := AucInput.hardLabel }

/-- The five comparison runs in notebook order. -/
def comparisonRuns : List RunConfig :=
  [cell11Run, cell12Run, cell13Run, cell14Run, cell15Run]

/-- The claim's relation: two runs agree on every step other than the
final classifier stage of the pipeline. -/
def agreesExceptClassifier (a b : RunConfig) : Bool :=
  a.trainSplit == b.trainSplit && a.testSplit == b.testSplit &&
  a.maxDf == b.maxDf && a.minDf == b.minDf &&
  a.maxFeatures == b.maxFeatures && a.ngramLo == b.ngramLo &&
  a.ngramHi == b.ngramHi && a.stemmedAnalyzer == b.stemmedAnalyzer &&
  a.stripAccentsAscii == b.stripAccentsAscii &&
  a.tfidfNorm == b.tfidfNorm && a.aucInput == b.aucInput &&
  a.reportedMetrics == b.reportedMetrics

/-- The weaker relation: two runs agree on every step other than the
final classifier stage and the score passed to roc_auc_score. -/
def agreesExceptClassifierAndAuc (a b : RunConfig) : Bool :=
  a.trainSplit == b.trainSplit && a.testSplit == b.testSplit &&
  a.maxDf == b.maxDf && a.minDf == b.minDf &&
  a.maxFeatures == b.maxFeatures && a.ngramLo == b.ngramLo &&
  a.ngramHi == b.ngramHi && a.stemmedAnalyzer == b.stemmedAnalyzer &&
  a.stripAccentsAscii == b.stripAccentsAscii &&
  a.tfidfNorm == b.tfidfNorm &&
  a.reportedMetrics == b.reportedMetrics

/-- One observable file-system or display effect of running a cell. -/
inductive Effect where
  | download (url fname : String)
  | extractTar (archive : String)
  | readFile (fname : String)
  | notebookDisplay
deriving DecidableEq

/-- Does the effect write to persistent storage? -/
def writesStorage : Effect → Bool
  | Effect.download _ _ => true
  | Effect.extractTar _ => true
  | _ => false

/-- The effect trace of the whole notebook run, cell by cell.  Model
fitting, prediction and metric computation are pure; prints, DataFrame
heads and the seaborn plot render to the notebook display only. -/
def notebookEffects : List Effect :=
  [Effect.download "https://ndownloader.figshare.com/files/7554634"
     "attack_annotated_comments.tsv",
   Effect.download "https://ndownloader.figshare.com/files/7554637"
     "attack_annotations.tsv",
   Effect.readFile "attack_annotated_comments.tsv",
   Effect.readFile "attack_annotations.tsv",
   Effect.notebookDisplay,
   Effect.notebookDisplay,
   Effect.notebookDisplay,
   Effect.notebookDisplay,
   Effect.notebookDisplay,
   Effect.notebookDisplay,
   Effect.notebookDisplay,
   Effect.notebookDisplay,
   Effect.notebookDisplay,
   Effect.notebookDisplay,
   Effect.download "https://ndownloader.figshare.com/files/6982061"
     "comments_user_2004.tar.gz",
   Effect.download "https://ndownloader.figshare.com/files/7038050"
     "comments_article_2004.tar.gz",
   Effect.extractTar "comments_user_2004.tar.gz",
   Effect.extractTar "comments_article_2004.tar.gz",
   Effect.readFile "comments_user_2004 chunk tsv files",
   Effect.readFile "comments_article_2004 chunk tsv files",
   Effect.notebookDisplay]

theorem replaceAllAux_eq_of_occurs_false (pat rep : List Char) :
    ∀ (fuel : Nat) (s : List Char),
      occurs pat s = false → replaceAllAux fuel pat rep s = s := by
  intro fuel
  induction fuel with
  | zero =>
    intro s _
    cases s <;> rfl
  | succ n ih =>
    intro s h
    cases s with
    | nil => rfl
    | cons c cs =>
      have h' : (startsWith pat (c :: cs) || occurs pat cs) = false := h
      have h1 : startsWith pat (c :: cs) = false := by
        cases hs : startsWith pat (c :: cs) <;> simp [hs] at h' ⊢
      have h2 : occurs pat cs = false := by
        cases ho : occurs pat cs <;> simp [ho, h1] at h' ⊢
      simp [replaceAllAux, h1, ih cs h2]

theorem replaceAll_eq_of_occurs_false (pat rep s : List Char)
    (h : occurs pat s = false) : replaceAll pat rep s = s :=
  replaceAllAux_eq_of_occurs_false pat rep s.length s h

/-- Helper: a string in which none of the five cleaning patterns occurs
is a fixed point of the full cell-9 cleaning. -/
theorem cleanComment_eq_self_of_no_occurs (s : List Char)
    (h1 : occurs patNewline s = false) (h2 : occurs patTab s = false)
    (h3 : occurs patPunct s = false) (h4 : occurs patHttp s = false)
    (h5 : occurs patDigit s = false) : cleanComment s = s := by
  unfold cleanComment
  rw [replaceAll_eq_of_occurs_false patNewline [' '] s h1,
    replaceAll_eq_of_occurs_false patTab [' '] s h2,
    replaceAll_eq_of_occurs_false patPunct [' '] s h3,
    replaceAll_eq_of_occurs_false patHttp [] s h4,
    replaceAll_eq_of_occurs_false patDigit [] s h5]

/-- Claim C1: the cell-9 cleaning is the five literal substring
replacement rules applied in order, and any comment containing none of
the five literal substrings is returned unchanged by the cleaning step. -/
theorem clean_unchanged_of_no_rule_substring (s : List Char)
    (h1 : occurs patNewline s = false) (h2 : occurs patTab s = false)
    (h3 : occurs patPunct s = false) (h4 : occurs patHttp s = false)
    (h5 : occurs patDigit s = false) : cleanComment s = s :=
  cleanComment_eq_self_of_no_occurs s h1 h2 h3 h4 h5

/-- Claim C1 witness: a concrete comment free of all five patterns is
returned unchanged. -/
theorem clean_unchanged_witness :
    cleanComment "hello world".toList = "hello world".toList :=
  clean_unchanged_of_no_rule_substring ("hello world".toList)
    (by decide) (by decide) (by decide) (by decide) (by decide)

/-- Claim C9 counterexample: the five-rule cleaning is not idempotent.
Rule 5 deletes the bracketed digit-range text from the middle of
NEWLINE-bracket-0-9-underscore-TOKEN, splicing the characters into the
literal NEWLINE_TOKEN, which a second cleaning pass then replaces by a
space; so cleaning twice differs from cleaning once on this input. -/
theorem clean_not_idempotent :
    cleanComment (cleanComment "NEWLINE[0-9]_TOKEN".toList) ≠
      cleanComment "NEWLINE[0-9]_TOKEN".toList := by decide

/-- Claim C9 (amended): the five-rule cleaning is not idempotent on all
strings, because a replacement can splice together a new occurrence of an
earlier pattern; it is idempotent exactly where needed, namely on every
input whose once-cleaned result contains none of the five literal
patterns. -/
theorem clean_idempotent_of_result_pattern_free (s : List Char)
    (h1 : occurs patNewline (cleanComment s) = false)
    (h2 : occurs patTab (cleanComment s) = false)
    (h3 : occurs patPunct (cleanComment s) = false)
    (h4 : occurs patHttp (cleanComment s) = false)
    (h5 : occurs patDigit (cleanComment s) = false) :
    cleanComment (cleanComment s) = cleanComment s :=
  cleanComment_eq_self_of_no_occurs (cleanComment s) h1 h2 h3 h4 h5

/-- Claim C9 (amended) witness: cleaning a concrete comment whose cleaned
form is pattern-free is idempotent. -/
theorem clean_idempotent_witness :
    cleanComment (cleanComment "some talk page comment".toList) =
      cleanComment "some talk page comment".toList :=
  clean_idempotent_of_result_pattern_free ("some talk page comment".toList)
    (by decide) (by decide) (by decide) (by decide) (by decide)

/-- Claim C5 counterexample: the corpus cleaning of cell 24 is not the
same function as the five-rule training cleaning of cell 9.  On the
comment consisting of the literal bracket-0-9-bracket text, the corpus
cleaning (only the NEWLINE_TOKEN and TAB_TOKEN rules) returns it
unchanged, while the training cleaning deletes it. -/
theorem corpusClean_ne_trainClean :
    corpusCleanComment "[0-9]".toList ≠ cleanComment "[0-9]".toList := by
  decide

theorem startsWith_length_le :
    ∀ (pat s : List Char), startsWith pat s = true → pat.length ≤ s.length
  | [], _, _ => Nat.zero_le _
  | _ :: _, [], h => by simp [startsWith] at h
  | _ :: ps, _ :: cs, h => by
    simp only [startsWith, Bool.and_eq_true] at h
    simpa [List.length_cons] using
      Nat.succ_le_succ (startsWith_length_le ps cs h.2)

/-- Helper: a replacement no longer than its pattern never lengthens the
scanned string. -/
theorem replaceAllAux_length_le (pat rep : List Char)
    (hrep : rep.length ≤ pat.length) :
    ∀ (fuel : Nat) (s : List Char),
      (replaceAllAux fuel pat rep s).length ≤ s.length := by
  intro fuel
  induction fuel with
  | zero =>
    intro s
    cases s <;> simp [replaceAllAux]
  | succ n ih =>
    intro s
    cases s with
    | nil => simp [replaceAllAux]
    | cons c cs =>
      cases hs : startsWith pat (c :: cs) with
      | false =>
        have hcs := ih cs
        simp [replaceAllAux, hs]
        omega
      | true =>
        have hp := startsWith_length_le pat (c :: cs) hs
        have hr := ih (List.drop pat.length (c :: cs))
        have hd := List.length_drop pat.length (c :: cs)
        simp only [List.length_cons] at hp hd
        simp [replaceAllAux, hs]
        omega

/-- Helper: a replacement strictly shorter than its pattern strictly
shortens any scanned string in which the pattern occurs, provided the
fuel covers the string. -/
theorem replaceAllAux_length_lt (pat rep : List Char)
    (hrep : rep.length < pat.length) :
    ∀ (fuel : Nat) (s : List Char), s.length ≤ fuel →
      occurs pat s = true →
      (replaceAllAux fuel pat rep s).length < s.length := by
  intro fuel
  induction fuel with
  | zero =>
    intro s hlen hocc
    cases s with
    | nil =>
      exfalso
      cases pat with
      | nil =>
        have h0 : ([] : List Char).length = 0 := rfl
        omega
      | cons p ps => simp [occurs, startsWith] at hocc
    | cons c cs =>
      simp only [List.length_cons] at hlen
      omega
  | succ n ih =>
    intro s hlen hocc
    cases s with
    | nil =>
      exfalso
      cases pat with
      | nil =>
        have h0 : ([] : List Char).length = 0 := rfl
        omega
      | cons p ps => simp [occurs, startsWith] at hocc
    | cons c cs =>
      cases hs : startsWith pat (c :: cs) with
      | false =>
        have hocc' : occurs pat cs = true := by
          have h' : (startsWith pat (c :: cs) || occurs pat cs) = true := hocc
          simpa [hs] using h'
        have hlen' : cs.length ≤ n := by
          simp only [List.length_cons] at hlen
          omega
        have hcs := ih cs hlen' hocc'
        simp [replaceAllAux, hs]
        omega
      | true =>
        have hp := startsWith_length_le pat (c :: cs) hs
        have hr := replaceAllAux_length_le pat rep (Nat.le_of_lt hrep) n
          (List.drop pat.length (c :: cs))
        have hd := List.length_drop pat.length (c :: cs)
        simp only [List.length_cons] at hp hd
        simp [replaceAllAux, hs]
        omega

theorem replaceAll_length_le (pat rep s : List Char)
    (hrep : rep.length ≤ pat.length) :
    (replaceAll pat rep s).length ≤ s.length :=
  replaceAllAux_length_le pat rep hrep s.length s

theorem replaceAll_length_lt (pat rep s : List Char)
    (hrep : rep.length < pat.length) (hocc : occurs pat s = true) :
    (replaceAll pat rep s).length < s.length :=
  replaceAllAux_length_lt pat rep hrep s.length s (Nat.le_refl _) hocc

/-- Helper: if any of the three remaining rules has its pattern in `t`,
applying the three of them strictly shortens `t`, since each rule
strictly shortens when its pattern occurs and never lengthens. -/
theorem cleanTail_length_lt_of_pattern (t : List Char)
    (h : ¬ (occurs patPunct t = false ∧ occurs patHttp t = false ∧
            occurs patDigit t = false)) :
    (replaceAll patDigit []
        (replaceAll patHttp [] (replaceAll patPunct [' '] t))).length <
      t.length := by
  by_cases h3 : occurs patPunct t = false
  · by_cases h4 : occurs patHttp t = false
    · have h5 : occurs patDigit t = true := by
        cases h5' : occurs patDigit t with
        | false => exact absurd ⟨h3, h4, h5'⟩ h
        | true => rfl
      rw [replaceAll_eq_of_occurs_false patPunct [' '] t h3,
        replaceAll_eq_of_occurs_false patHttp [] t h4]
      exact replaceAll_length_lt patDigit [] t (by decide) h5
    · have h4' : occurs patHttp t = true := by
        cases h4'' : occurs patHttp t with
        | false => exact absurd h4'' h4
        | true => rfl
      rw [replaceAll_eq_of_occurs_false patPunct [' '] t h3]
      have l4 := replaceAll_length_lt patHttp [] t (by decide) h4'
      have l5 := replaceAll_length_le patDigit []
        (replaceAll patHttp [] t) (by decide)
      omega
  · have h3' : occurs patPunct t = true := by
      cases h3'' : occurs patPunct t with
      | false => exact absurd h3'' h3
      | true => rfl
    have l3 := replaceAll_length_lt patPunct [' '] t (by decide) h3'
    have l4 := replaceAll_length_le patHttp []
      (replaceAll patPunct [' '] t) (by decide)
    have l5 := replaceAll_length_le patDigit []
      (replaceAll patHttp [] (replaceAll patPunct [' '] t)) (by decide)
    omega

/-- Claim C5 (amended): before the classifier is applied, the corpus
comments undergo only the first two of the five cleaning rules
(NEWLINE_TOKEN and TAB_TOKEN each replaced by a space); the training
cleaning agrees with the corpus cleaning exactly on those comments whose
two-rule-cleaned form contains none of the three remaining patterns
(punctuation literal, http literal, digit-range literal): if none
occurs the cleanings agree, and if any occurs they differ. -/
theorem corpusClean_eq_trainClean_iff (s : List Char) :
    cleanComment s = corpusCleanComment s ↔
      (occurs patPunct (corpusCleanComment s) = false ∧
       occurs patHttp (corpusCleanComment s) = false ∧
       occurs patDigit (corpusCleanComment s) = false) := by
  have hdef : cleanComment s =
      replaceAll patDigit [] (replaceAll patHttp []
        (replaceAll patPunct [' '] (corpusCleanComment s))) := rfl
  constructor
  · intro heq
    by_contra hnot
    have hlt := cleanTail_length_lt_of_pattern (corpusCleanComment s) hnot
    have heq' : replaceAll patDigit [] (replaceAll patHttp []
        (replaceAll patPunct [' '] (corpusCleanComment s))) =
        corpusCleanComment s := by
      rw [← hdef]
      exact heq
    rw [heq'] at hlt
    exact lt_irrefl _ hlt
  · rintro ⟨h3, h4, h5⟩
    rw [hdef,
      replaceAll_eq_of_occurs_false patPunct [' '] (corpusCleanComment s) h3,
      replaceAll_eq_of_occurs_false patHttp [] (corpusCleanComment s) h4,
      replaceAll_eq_of_occurs_false patDigit [] (corpusCleanComment s) h5]

/-- Claim C5 (amended) witness: on a concrete comment with a newline
token and no other pattern the two cleanings agree, by the right-to-left
direction of the characterization at a concrete input. -/
theorem corpusClean_eq_trainClean_iff_witness :
    cleanComment "helloNEWLINE_TOKENworld".toList =
      corpusCleanComment "helloNEWLINE_TOKENworld".toList :=
  (corpusClean_eq_trainClean_iff ("helloNEWLINE_TOKENworld".toList)).mpr
    ⟨by decide, by decide, by decide⟩

/-- Claim C7: for a rev_id present in the annotations table, the attack
label joined onto the comments table is True exactly when the mean of
that revision's annotator attack values is strictly greater than 0.5,
and an exact tie at 0.5 yields False. -/
theorem attack_label_iff_mean_gt_half (annotations : List (Nat × ℚ))
    (revIds : List Nat) (rid : Nat)
    (_hpres : attackVals annotations rid ≠ [])
    (hmem : rid ∈ revIds) :
    (rid, attackLabel annotations rid) ∈ joinAttack annotations revIds ∧
    (attackLabel annotations rid = true ↔
      attackMean annotations rid > 1 / 2) ∧
    (attackMean annotations rid = 1 / 2 →
      attackLabel annotations rid = false) := by
  refine ⟨List.mem_map.mpr ⟨rid, hmem, rfl⟩, ?_, ?_⟩
  · unfold attackLabel
    exact decide_eq_true_iff
  · intro h
    unfold attackLabel
    exact decide_eq_false (by rw [h]; exact lt_irrefl _)

/-- Claim C7 witness: with two annotators, one voting 1 and one voting 0,
the mean is exactly one half and the joined label is False. -/
theorem attack_label_witness :
    ((1, attackLabel [(1, (1 : ℚ)), (1, 0)] 1) ∈
      joinAttack [(1, (1 : ℚ)), (1, 0)] [1]) ∧
    (attackLabel [(1, (1 : ℚ)), (1, 0)] 1 = true ↔
      attackMean [(1, (1 : ℚ)), (1, 0)] 1 > 1 / 2) ∧
    (attackMean [(1, (1 : ℚ)), (1, 0)] 1 = 1 / 2 →
      attackLabel [(1, (1 : ℚ)), (1, 0)] 1 = false) :=
  attack_label_iff_mean_gt_half [(1, (1 : ℚ)), (1, 0)] [1] 1
    (by decide) (by decide)

/-- Claim C8: every row returned by load_no_bot_no_admin has bot 0,
admin 0 and include 1, and carries the ns and year arguments in its ns
and year columns; rows failing the filter never appear. -/
theorem load_no_bot_no_admin_invariant
    (chunks : List (List CRow × List Int)) (ns : String) (year : Int)
    (r : CRow) (h : r ∈ load_no_bot_no_admin chunks ns year) :
    r.bot = 0 ∧ r.admin = 0 ∧ r.incl = 1 ∧ r.ns = ns ∧ r.year = year := by
  unfold load_no_bot_no_admin at h
  rcases List.mem_map.mp h with ⟨r', hr', rfl⟩
  rcases List.mem_flatten.mp hr' with ⟨l, hl, hr'l⟩
  rcases List.mem_map.mp hl with ⟨c, _, rfl⟩
  unfold chunkSample at hr'l
  have hb := (List.mem_filter.mp hr'l).2
  simp only [Bool.and_eq_true, beq_iff_eq] at hb
  exact ⟨hb.1.1, hb.1.2, hb.2, rfl, rfl⟩

/-- Claim C8 witness: a concrete one-chunk corpus with one row drawn into
the sample yields a row satisfying the invariant. -/
theorem load_no_bot_no_admin_witness :
    ({ bot := 0, admin := 0, incl := 1, ns := "user", year := 2004,
       comment := [] } : CRow).bot = 0 ∧
    ({ bot := 0, admin := 0, incl := 1, ns := "user", year := 2004,
       comment := [] } : CRow).admin = 0 ∧
    ({ bot := 0, admin := 0, incl := 1, ns := "user", year := 2004,
       comment := [] } : CRow).incl = 1 ∧
    ({ bot := 0, admin := 0, incl := 1, ns := "user", year := 2004,
       comment := [] } : CRow).ns = "user" ∧
    ({ bot := 0, admin := 0, incl := 1, ns := "user", year := 2004,
       comment := [] } : CRow).year = 2004 :=
  load_no_bot_no_admin_invariant
    [([{ bot := 0, admin := 0, incl := 0, ns := "x", year := 0,
         comment := [] }], [1])]
    "user" 2004
    { bot := 0, admin := 0, incl := 1, ns := "user", year := 2004,
      comment := [] }
    (by decide)

theorem sum_attackIndicator_eq_filter_length (p : List Char → ℚ)
    (l : List CRow) :
    (l.map (attackIndicator p)).sum =
      ((l.filter (markAttack p)).length : ℚ) := by
  induction l with
  | nil => simp
  | cons a t ih =>
    rw [List.map_cons, List.sum_cons, List.filter_cons, ih]
    cases h : markAttack p a
    · simp [attackIndicator, h]
    · simp [attackIndicator, h, add_comm]

/-- Claim C2: the classifier is applied to every sampled corpus comment,
a comment is marked as an attack exactly when the predicted attack-class
probability is strictly greater than 0.425 (a probability of exactly
0.425 is not marked), and the per-namespace prevalence estimate is the
fraction of that namespace's comments so marked. -/
theorem prevalence_eq_fraction_marked (p : List Char → ℚ)
    (corpus : List CRow) (ns : String) (r : CRow) (_hr : r ∈ corpus) :
    (markAttack p r = true ↔
      p (corpusCleanComment r.comment) > (425 : ℚ) / 1000) ∧
    (p (corpusCleanComment r.comment) = (425 : ℚ) / 1000 →
      markAttack p r = false) ∧
    nsPrevalence p corpus ns =
      (((corpus.filter (fun x => x.ns == ns)).filter
          (markAttack p)).length : ℚ) /
        ((corpus.filter (fun x => x.ns == ns)).length : ℚ) := by
  refine ⟨?_, ?_, ?_⟩
  · unfold markAttack
    exact decide_eq_true_iff
  · intro h
    unfold markAttack
    exact decide_eq_false (by rw [h]; exact lt_irrefl _)
  · unfold nsPrevalence
    rw [sum_attackIndicator_eq_filter_length]

/-- Claim C2 witness: a constant one-half probability strictly exceeds
the 0.425 threshold, so a one-row user-namespace corpus is fully marked
and its prevalence is the marked fraction. -/
theorem prevalence_witness :
    (markAttack (fun _ => (1 : ℚ) / 2)
        { bot := 0, admin := 0, incl := 1, ns := "user", year := 2004,
          comment := [] } = true ↔
      (fun _ : List Char => (1 : ℚ) / 2)
          (corpusCleanComment
            ({ bot := 0, admin := 0, incl := 1, ns := "user", year := 2004,
               comment := [] } : CRow).comment) > (425 : ℚ) / 1000) ∧
    ((fun _ : List Char => (1 : ℚ) / 2)
        (corpusCleanComment
          ({ bot := 0, admin := 0, incl := 1, ns := "user", year := 2004,
             comment := [] } : CRow).comment) = (425 : ℚ) / 1000 →
      markAttack (fun _ => (1 : ℚ) / 2)
        { bot := 0, admin := 0, incl := 1, ns := "user", year := 2004,
          comment := [] } = false) ∧
    nsPrevalence (fun _ => (1 : ℚ) / 2)
        [{ bot := 0, admin := 0, incl := 1, ns := "user", year := 2004,
           comment := [] }] "user" =
      ((([({ bot := 0, admin := 0, incl := 1, ns := "user", year := 2004,
             comment := [] } : CRow)].filter
            (fun x => x.ns == "user")).filter
          (markAttack (fun _ => (1 : ℚ) / 2))).length : ℚ) /
        (([({ bot := 0, admin := 0, incl := 1, ns := "user", year := 2004,
              comment := [] } : CRow)].filter
            (fun x => x.ns == "user")).length : ℚ) :=
  prevalence_eq_fraction_marked (fun _ => (1 : ℚ) / 2)
    [{ bot := 0, admin := 0, incl := 1, ns := "user", year := 2004,
       comment := [] }] "user"
    { bot := 0, admin := 0, incl := 1, ns := "user", year := 2004,
      comment := [] }
    (by decide)

/-- Claim C3: the classifier is bag-of-words: two comments whose analyzed
(stemmed) token sequences contain the same multiset of tokens receive the
same feature vector, hence the same prediction from any function of the
features. -/
theorem bagOfWords_permutation_invariant (vocab : List (List Char))
    (an : List Char → List (List Char)) (predictFn : List Nat → ℚ)
    (d1 d2 : List Char) (h : List.Perm (an d1) (an d2)) :
    featureVector vocab an d1 = featureVector vocab an d2 ∧
    predictFn (featureVector vocab an d1) =
      predictFn (featureVector vocab an d2) := by
  have hf : featureVector vocab an d1 = featureVector vocab an d2 := by
    unfold featureVector
    apply List.map_congr_left
    intro t _
    exact (h.filter (fun w => w == t)).length_eq
  exact ⟨hf, congrArg predictFn hf⟩

/-- Claim C3 witness: with a per-character analyzer, the documents ab and
ba have permuted token sequences and identical feature vectors and
predictions. -/
theorem bagOfWords_witness :
    featureVector [['a'], ['b']] (fun d => d.map (fun c => [c]))
        ['a', 'b'] =
      featureVector [['a'], ['b']] (fun d => d.map (fun c => [c]))
        ['b', 'a'] ∧
    (fun l : List Nat => ((l.sum : ℕ) : ℚ))
        (featureVector [['a'], ['b']] (fun d => d.map (fun c => [c]))
          ['a', 'b']) =
      (fun l : List Nat => ((l.sum : ℕ) : ℚ))
        (featureVector [['a'], ['b']] (fun d => d.map (fun c => [c]))
          ['b', 'a']) :=
  bagOfWords_permutation_invariant [['a'], ['b']]
    (fun d => d.map (fun c => [c])) (fun l => ((l.sum : ℕ) : ℚ))
    ['a', 'b'] ['b', 'a'] (by decide)

/-- Claim C4 counterexample: the logistic-regression run of cell 11 and
the linear-SVC run of cell 13 do not perform the identical sequence of
steps up to the classifier: cell 11 feeds roc_auc_score the
positive-class column of predict_proba while cell 13 feeds it the hard
predictions of predict. -/
theorem comparison_runs_differ_beyond_classifier :
    agreesExceptClassifier cell11Run cell13Run = false := by decide

/-- Claim C4 (amended): the five classifier-comparison runs perform the
identical sequence of steps, differing only in the final classifier stage
and in the score passed to roc_auc_score: the logistic-regression and
random-forest runs score with the positive-class column of predict_proba,
while the linear-SVC, multinomial-naive-Bayes and multilayer-perceptron
runs score with the hard predictions of predict. -/
theorem comparison_runs_agree_except_classifier_and_auc :
    (comparisonRuns.all fun a => comparisonRuns.all fun b =>
        agreesExceptClassifierAndAuc a b) = true ∧
    cell11Run.aucInput = AucInput.probaPositiveClass ∧
    cell12Run.aucInput = AucInput.probaPositiveClass ∧
    cell13Run.aucInput = AucInput.hardLabel ∧
    cell14Run.aucInput = AucInput.hardLabel ∧
    cell15Run.aucInput = AucInput.hardLabel := by decide

/-- Claim C6: the only persistent-storage writes in the notebook's effect
trace are the four dataset downloads and the extraction of the two
tarballs; no model, prediction, metric or plot is ever written to
persistent storage. -/
theorem notebook_writes_only_downloads_and_extractions :
    notebookEffects.filter writesStorage =
      [Effect.download "https://ndownloader.figshare.com/files/7554634"
         "attack_annotated_comments.tsv",
       Effect.download "https://ndownloader.figshare.com/files/7554637"
         "attack_annotations.tsv",
       Effect.download "https://ndownloader.figshare.com/files/6982061"
         "comments_user_2004.tar.gz",
       Effect.download "https://ndownloader.figshare.com/files/7038050"
         "comments_article_2004.tar.gz",
       Effect.extractTar "comments_user_2004.tar.gz",
       Effect.extractTar "comments_article_2004.tar.gz"] := by rfl
